import Mathlib

/-!
Verification development for the crewAI orchestration core.

Shallow embedding of the two source files:
  * `src/crewai/tools/tool_usage.py`  (Tool Invocation Engine)
  * `src/crewai/crew.py`              (Crew Orchestrator)

External collaborators that the source reaches through narrow interfaces
(the ToolsHandler / CacheHandler, the i18n string table, the agent tools
factory, Task.execute, the structured-extraction LLM oracle) are not under
`src/`; where a claim depends on them they are modelled from the spec and
marked `Modelled from the spec:` in their doc comments.
-/

namespace CrewAI

/-- Argument values carried inside a parsed tool call.  The parse prompt in
`tool_usage.py` shows both string and integer argument values, so the
embedding keeps both; `", ".join(...)` over argument values raises in Python
exactly when a non-string value is present. -/
inductive ArgVal where
  | s (v : String)
  | i (v : Int)
deriving DecidableEq, Repr

/-- Modelled from the spec: `crewai.tools.tool_calling.ToolCalling`.
`tool_calling.py` is not under `src/`; the spec defines a ToolCalling as an
immutable record with a `function_name` and an `arguments` mapping, equal iff
both fields match by value.  The mapping is represented as an ordered
association list. -/
structure ToolCalling where
  function_name : String
  arguments : List (String × ArgVal)
deriving DecidableEq, Repr

/-- Python `", ".join(calling.arguments.values())`: succeeds with the
comma-joined values when every value is a string, raises `TypeError`
otherwise (modelled as `none`). -/
def joinArgValues : List (String × ArgVal) → Option String
  | [] => some ""
  | (_, ArgVal.s v) :: rest =>
      match rest with
      | [] => some v
      | _ => (joinArgValues rest).map (fun r => v ++ ", " ++ r)
  | (_, ArgVal.i _) :: _ => none

/-- Modelled from the spec: the `CacheHandler` (`crewai/agents/cache` is not
under `src/`) keyed by `(tool_name, arguments)`; `read` returns the stored
output for the key, if any. -/
def cacheRead (cache : List ((String × List (String × ArgVal)) × String))
    (tool : String) (input : List (String × ArgVal)) : Option String :=
  (cache.find? (fun e => e.1 == (tool, input))).map (·.2)

/-- Modelled from the spec: `CacheHandler.add` stores the tool's last
successful output under the `(tool_name, arguments)` key (overwriting any
previous entry for the key). -/
def cacheAdd (cache : List ((String × List (String × ArgVal)) × String))
    (tool : String) (input : List (String × ArgVal)) (output : String) :
    List ((String × List (String × ArgVal)) × String) :=
  ((tool, input), output) :: cache.filter (fun e => ¬ (e.1 == (tool, input)))

/-- Modelled from the spec: the `ToolsHandler`
(`crewai/agents/tools_handler.py` is not under `src/`).  It records the
immediately preceding tool call for the repeated-usage comparison and owns
the crew's result cache.  Since `on_tool_start` is the only handler method
the engine invokes on the cache-hit path and the spec (step 8) requires
cached calls to be recorded as "last used tool", the recording happens in
`on_tool_start`; `on_tool_end` writes the cache entry. -/
structure ToolsHandlerState where
  last_used_tool : Option ToolCalling
  cache : List ((String × List (String × ArgVal)) × String)
deriving DecidableEq, Repr

/-- Embedding of `ToolsHandler.on_tool_start`: record the call being attempted as the
last used tool (modelled from the spec, see `ToolsHandlerState`). -/
def onToolStart (h : ToolsHandlerState) (calling : ToolCalling) : ToolsHandlerState :=
  { h with last_used_tool := some calling }

/-- Embedding of `ToolsHandler.on_tool_end`: write the successful output to the cache
(modelled from the spec, see `ToolsHandlerState`). -/
def onToolEnd (h : ToolsHandlerState) (calling : ToolCalling) (output : String) :
    ToolsHandlerState :=
  { h with cache := cacheAdd h.cache calling.function_name calling.arguments output }

/-- An external tool: `name` plus `run(arguments)`, which either returns an
output string or raises (modelled as `Except.error` with the exception
text). -/
structure SimTool where
  name : String
  run : List (String × ArgVal) → Except String String

/-- Environment of a `ToolUsage` instance: the structured-extraction oracle
(the bound LLM asked to re-express free text as a `ToolCalling`; `none`
models an extraction exception), the registered tools, and the description /
names strings used by the reminder block. -/
structure ToolEnv where
  parse : String → Option ToolCalling
  tools : List SimTool
  tools_description : String
  tools_names : String

/-- Mutable state of a `ToolUsage` instance plus the task counter it touches:
`_run_attempts` (initialised to 1), `_max_parsing_attempts` (2),
`_remeber_format_after_usages` (3), `task.used_tools`, the tools handler,
and an instrumentation log of every `tool._run` invocation (tool name and
arguments, in order). -/
structure UseState where
  run_attempts : Nat
  max_parsing_attempts : Nat
  remember_after : Nat
  used_tools : Nat
  handler : ToolsHandlerState
  execLog : List (String × List (String × ArgVal))
deriving DecidableEq, Repr

/-- Embedding of the `ToolUsage.__init__` defaults with a fresh handler. -/
def initUseState : UseState :=
  { run_attempts := 1, max_parsing_attempts := 2, remember_after := 3,
    used_tools := 0, handler := { last_used_tool := none, cache := [] },
    execLog := [] }

/-- Modelled from the spec: `I18N.errors("task_repeated_usage")` — the
localized "you already tried that" message (the i18n table is not under
`src/`). -/
def task_repeated_usage_msg (tool tool_input : String) : String :=
  "I already used the " ++ tool ++ " tool with input " ++ tool_input ++
    ". I know the result and do not need to use it again."

/-- Modelled from the spec: `I18N.errors("tool_usage_exception")` formatted
with the underlying error — the terminal error string for an execution
failure contains the underlying error detail. -/
def tool_usage_exception_msg (error : String) : String :=
  "An error occurred while using the tool: " ++ error

/-- Modelled from the spec: `I18N.errors("tool_usage_error")` — the terminal
message for a parse failure, surfaced as the observation. -/
def tool_usage_error_msg : String :=
  "The tool input could not be parsed into a valid schema."

/-- Modelled from the spec: `I18N.slice("tools")` formatted with the tool
descriptions and names — the reminder block re-stating the available
tools. -/
def tools_reminder_slice (descr names : String) : String :=
  "Remember the available tools:\n" ++ descr ++ "\nTool names: " ++ names

/-- The message of the exception raised by `ToolUsage._select_tool` when no
registered tool matches. -/
def toolNotFoundMsg (name : String) : String :=
  "Tool '" ++ name ++ "' not found."

/-- ASCII lower-casing of one character (model of Python `str.lower` on the
ASCII names the source compares). -/
def charLower (c : Char) : Char :=
  if 65 ≤ c.toNat ∧ c.toNat ≤ 90 then Char.ofNat (c.toNat + 32) else c

/-- Model of Python `str.lower` (ASCII). -/
def pyLower (s : String) : String :=
  ⟨s.data.map charLower⟩

/-- Does the first list start with the second? -/
def listStartsWith : List Char → List Char → Bool
  | _, [] => true
  | [], _ :: _ => false
  | a :: as, b :: bs => a == b && listStartsWith as bs

/-- Left-to-right scan of Python `str.replace` over character lists; the
fuel is an upper bound on the number of scan steps (the input length
suffices, since every step consumes at least one input character). -/
def replaceFuel (pat rep : List Char) : Nat → List Char → List Char
  | 0, l => l
  | _ + 1, [] => []
  | fuel + 1, c :: rest =>
    if listStartsWith (c :: rest) pat then
      rep ++ replaceFuel pat rep fuel (List.drop (pat.length - 1) rest)
    else
      c :: replaceFuel pat rep fuel rest

/-- Model of Python `str.replace` (all occurrences, left to right) for a
non-empty pattern. -/
def pyReplace (s pat rep : String) : String :=
  match pat.data with
  | [] => s
  | _ :: _ => ⟨replaceFuel pat.data rep.data s.data.length s.data⟩

/-- Embedding of `ToolUsage._select_tool`: first registered tool whose name matches
case-insensitively; `none` models the raised `Exception`. -/
def selectTool (tools : List SimTool) (tool_name : String) : Option SimTool :=
  tools.find? (fun t => pyLower t.name == pyLower tool_name)

/-- The boilerplate stripping at the top of `ToolUsage._tool_calling`. -/
def normalizeToolString (s : String) : String :=
  pyReplace (pyReplace (pyReplace s "Thought: Do I need to use a tool? Yes" "")
      "Action:" "Tool Name:") "Action Input:" "Tool Arguments:"

/-- Embedding of `ToolUsage._remember_format`: append the reminder block to the result. -/
def rememberFormat (env : ToolEnv) (result : String) : String :=
  result ++ "\n\n" ++ tools_reminder_slice env.tools_description env.tools_names

/-- Embedding of `ToolUsage._format_result`: increment `task.used_tools` and, when the
counter is a multiple of `_remeber_format_after_usages`, append the reminder
block (`_should_remember_format` / `_remember_format`). -/
def formatResult (env : ToolEnv) (st : UseState) (result : String) :
    UseState × String :=
  let st' := { st with used_tools := st.used_tools + 1 }
  if st'.used_tools % st'.remember_after == 0 then
    (st', rememberFormat env result)
  else
    (st', result)

/-- Embedding of `ToolUsage._check_tool_repeated_usage`: compare the new call with the
handler's last used tool by value equality (falls through to `None`, i.e.
`false`, when nothing is recorded yet). -/
def checkToolRepeatedUsage (st : UseState) (calling : ToolCalling) : Bool :=
  match st.handler.last_used_tool with
  | some last => calling == last
  | none => false

/-- Embedding of `ToolUsage._tool_calling`: normalize the raw text, ask the extraction
oracle for a `ToolCalling`; on an extraction exception increment
`_run_attempts` and retry recursively (passing the normalized text, as the
source's rebound local does) until the counter exceeds
`_max_parsing_attempts`, then return (not raise) the terminal parse-error
message (`ToolUsageErrorException`).  The `fuel` argument only bounds the
recursion depth of the embedding; `none` in the result means the fuel ran
out. -/
def toolCallingFuel : Nat → ToolEnv → UseState → String →
    UseState × Option (Except String ToolCalling)
  | 0, _, st, _ => (st, none)
  | fuel + 1, env, st, ts =>
    let ts' := normalizeToolString ts
    match env.parse ts' with
    | some calling => (st, some (Except.ok calling))
    | none =>
      let st' := { st with run_attempts := st.run_attempts + 1 }
      if st'.run_attempts > st'.max_parsing_attempts then
        (st', some (Except.error tool_usage_error_msg))
      else
        toolCallingFuel fuel env st' ts'

/-- Outcome of one `ToolUsage.use` call: an observation string returned
in-band, an exception propagated past `use`, or fuel exhaustion of the
embedding (never reached with adequate fuel). -/
inductive UseOutcome where
  | ok (s : String)
  | raised (msg : String)
  | fuelOut
deriving DecidableEq, Repr

/-- Embedding of `ToolUsage.use` together with the inlined body of `ToolUsage._use`.

`use`: parse via `_tool_calling`; a returned `ToolUsageErrorException` is
converted to its message and returned (printed, not raised); then
`_select_tool` (whose failure RAISES and is not caught in `use`), then
`_use`.

`_use`: the repeated-usage guard (its `try` block returns the localized
message, but any exception inside it — the `", ".join` over non-string
argument values — is swallowed by `except: pass` and execution falls
through); `on_tool_start`; cache read; Python's `if not result:` treats both
a missing entry and an empty-string entry as a miss and executes the tool;
an execution exception increments `_run_attempts` and re-enters the whole
`use(tool_string)` recursively until the counter exceeds
`_max_parsing_attempts`, at which point the terminal execution-error message
is returned as a string; a fresh successful execution is recorded via
`on_tool_end`; success, cache hit and the repeated-usage message all go
through `_format_result`. -/
def useFuel : Nat → ToolEnv → UseState → String → UseState × UseOutcome
  | 0, _, st, _ => (st, UseOutcome.fuelOut)
  | fuel + 1, env, st, ts =>
    match toolCallingFuel (fuel + 1) env st ts with
    | (st1, none) => (st1, UseOutcome.fuelOut)
    | (st1, some (Except.error msg)) => (st1, UseOutcome.ok msg)
    | (st1, some (Except.ok calling)) =>
      match selectTool env.tools calling.function_name with
      | none => (st1, UseOutcome.raised (toolNotFoundMsg calling.function_name))
      | some tool =>
        match
          (if checkToolRepeatedUsage st1 calling then
            joinArgValues calling.arguments
          else none) with
        | some tool_input =>
          let r := task_repeated_usage_msg calling.function_name tool_input
          let p := formatResult env st1 r
          (p.1, UseOutcome.ok p.2)
        | none =>
          let st2 := { st1 with handler := onToolStart st1.handler calling }
          let cached :=
            cacheRead st2.handler.cache calling.function_name calling.arguments
          if cached.getD "" == "" then
            let st3 :=
              { st2 with
                execLog := st2.execLog ++ [(tool.name, calling.arguments)] }
            match tool.run calling.arguments with
            | Except.error e =>
              let st4 := { st3 with run_attempts := st3.run_attempts + 1 }
              if st4.run_attempts > st4.max_parsing_attempts then
                (st4, UseOutcome.ok (tool_usage_exception_msg e))
              else
                useFuel fuel env st4 ts
            | Except.ok result =>
              let st4 :=
                { st3 with handler := onToolEnd st3.handler calling result }
              let p := formatResult env st4 result
              (p.1, UseOutcome.ok p.2)
          else
            let p := formatResult env st2 (cached.getD "")
            (p.1, UseOutcome.ok p.2)

/-!  Embedding of `src/crewai/crew.py` (Crew Orchestrator).  -/

deriving instance DecidableEq for Except

/-- An agent as the orchestrator sees it: role, delegation flag, tool list
(tool names; pydantic equality is field-by-field value equality). -/
structure MAgent where
  role : String
  allow_delegation : Bool
  tools : List String
deriving DecidableEq, Repr

/-- A task as the orchestrator sees it: description, expected output, owning
agent (nullable), tool list, optional completion callback (an opaque token),
and the async-execution flag. -/
structure MTask where
  description : String
  expected_output : String
  agent : Option MAgent
  tools : List String
  callback : Option String
  async_execution : Bool
deriving DecidableEq, Repr

/-- The `Process` enumeration (`crewai/process.py`). -/
inductive MProcess where
  | sequential
  | hierarchical
  | autonomous
deriving DecidableEq, Repr

/-- Declarative configuration: agent definitions, task definitions (each a
`(description, expected_output, agent role)` triple), and an optional
process override.  An absent or empty `config` mapping is modelled as
`none`; an empty `agents`/`tasks` list models a missing or empty key (both
falsy in the source's `self.config.get(...)` checks). -/
structure MConfig where
  agents : List MAgent
  taskSpecs : List (String × String × String)
  process : Option MProcess
deriving DecidableEq, Repr

/-- The Crew fields the orchestration logic reads. -/
structure MCrew where
  tasks : List MTask
  agents : List MAgent
  process : MProcess
  manager_llm : Option String
  manager_agent : Option MAgent
  task_callback : Option String
  config : Option MConfig
deriving DecidableEq, Repr

/-- Embedding of the `check_manager_llm` model validator: a hierarchical
crew needs a `manager_llm` or a `manager_agent`, and a supplied manager
agent must not also be in the member-agent list. -/
def check_manager_llm (crew : MCrew) : Except String MCrew :=
  if crew.process = MProcess.hierarchical then
    if crew.manager_llm = none ∧ crew.manager_agent = none then
      Except.error "missing_manager_llm_or_manager_agent"
    else
      match crew.manager_agent with
      | some m =>
        if crew.agents.contains m then
          Except.error "manager_agent_in_agents"
        else
          Except.ok crew
      | none => Except.ok crew
  else
    Except.ok crew

/-- Embedding of `Crew._create_task`: look up the task's agent by role
(`next(...)` raises `StopIteration` when no agent matches, modelled as an
error). -/
def create_task (agents : List MAgent) (spec : String × String × String) :
    Except String MTask :=
  match agents.find? (fun a => a.role == spec.2.2) with
  | some a =>
    Except.ok
      { description := spec.1, expected_output := spec.2.1, agent := some a,
        tools := [], callback := none, async_execution := false }
  | none => Except.error "StopIteration"

/-- Embedding of `Crew._setup_from_config`: both the `agents` and the
`tasks` keys must be present and non-empty, else a configuration error;
otherwise agents and tasks are built from the config and the process may be
overridden. -/
def setup_from_config (crew : MCrew) (cfg : MConfig) : Except String MCrew :=
  if cfg.agents.isEmpty ∨ cfg.taskSpecs.isEmpty then
    Except.error "missing_keys_in_config"
  else
    match cfg.taskSpecs.mapM (create_task cfg.agents) with
    | Except.error e => Except.error e
    | Except.ok tasks =>
      Except.ok
        { crew with
          process := cfg.process.getD crew.process,
          agents := cfg.agents,
          tasks := tasks }

/-- Embedding of the `check_config` model validator: an error only when
`config`, `tasks` and `agents` are ALL absent/empty; when a config is
supplied, set up from it.  (The cache/rpm handler wiring on the agents is
external state and not modelled.) -/
def check_config (crew : MCrew) : Except String MCrew :=
  if crew.config.isNone ∧ crew.tasks.isEmpty ∧ crew.agents.isEmpty then
    Except.error "missing_keys"
  else
    match crew.config with
    | some cfg => setup_from_config crew cfg
    | none => Except.ok crew

/-- Construction-time validation: pydantic runs the model validators in
declaration order, so `check_manager_llm` runs before `check_config`
(the private-attribute and memory validators touch only external state). -/
def constructCrew (crew : MCrew) : Except String MCrew :=
  match check_manager_llm crew with
  | Except.error e => Except.error e
  | Except.ok c => check_config c

/-- Embedding of `Crew._set_tasks_callbacks`: the guarded assignment
followed by the unconditional assignment, exactly as in the source (the
second statement makes the guard dead). -/
def set_tasks_callbacks (crew : MCrew) : MCrew :=
  { crew with
    tasks := crew.tasks.map (fun t =>
      let t1 := if t.callback.isNone then { t with callback := crew.task_callback } else t
      { t1 with callback := crew.task_callback }) }

/-- Modelled from the spec: `Task.interpolate_inputs` /
`Agent.interpolate_inputs` (`crewai/task.py` and `crewai/agent.py` are not
under `src/`): literal substring substitution of `\x7bkey\x7d` placeholders,
unresolved placeholders left as-is. -/
def interpolate_string (inputs : List (String × String)) (s : String) : String :=
  inputs.foldl (fun acc kv => pyReplace acc ("\x7b" ++ kv.1 ++ "\x7d") kv.2) s

/-- Embedding of `Crew._interpolate_inputs`: interpolate the caller-supplied
inputs into every task (agent prompt fields are external and not
modelled). -/
def interpolate_inputs (inputs : List (String × String)) (crew : MCrew) : MCrew :=
  { crew with
    tasks := crew.tasks.map (fun t =>
      { t with
        description := interpolate_string inputs t.description,
        expected_output := interpolate_string inputs t.expected_output }) }

/-- Modelled from the spec: `AgentTools(agents).tools()`
(`crewai/tools/agent_tools.py` is not under `src/`): one synthetic
delegation tool per agent ("ask/delegate to agent X"). -/
def agent_tools (agents : List MAgent) : List String :=
  agents.map (fun a => "Delegate work to " ++ a.role)

/-- Embedding of the delegation-tool augmentation at the top of the task
loop in `Crew._run_sequential_process`: when the task's agent allows
delegation and more than one agent exists, append one delegation tool per
other agent to the task's tools (`task.tools += ...`).  A task with no agent
makes `task.agent.allow_delegation` raise `AttributeError`, modelled as
`none`. -/
def augment_task_tools (agents : List MAgent) (t : MTask) : Option MTask :=
  match t.agent with
  | none => none
  | some a =>
    if a.allow_delegation then
      let agents_for_delegation := agents.filter (fun ag => ag != a)
      if agents.length > 1 ∧ agents_for_delegation.length > 0 then
        some { t with tools := t.tools ++ agent_tools agents_for_delegation }
      else
        some t
    else
      some t

/-- Execution environment for a crew run.  Modelled from the spec:
`Task.execute` (`crewai/task.py` is not under `src/`) produces the task's
textual result from the executing agent, the task and the context handed to
it; the oracle abstracts the agent/LLM reasoning step. -/
structure RunEnv where
  execOutput : Option MAgent → MTask → String → String

/-- Embedding of the task loop of `Crew._run_sequential_process`: augment the
task's tools, execute with the running context, and feed the output forward
unless the task is marked for asynchronous execution.  Returns the execution
trace (task descriptions in execution order), and on success the mutated
task list plus the final `task_output`. -/
def run_seq_tasks (env : RunEnv) (agents : List MAgent) :
    List MTask → String → List String × Except String (List MTask × String)
  | [], ctx => ([], Except.ok ([], ctx))
  | t :: ts, ctx =>
    match augment_task_tools agents t with
    | none => ([], Except.error "AttributeError")
    | some t' =>
      let out := env.execOutput t'.agent t' ctx
      let ctx' := if t'.async_execution then ctx else out
      match run_seq_tasks env agents ts ctx' with
      | (tr, Except.error e) => (t'.description :: tr, Except.error e)
      | (tr, Except.ok (ts', fin)) => (t'.description :: tr, Except.ok (t' :: ts', fin))

/-- Embedding of `Crew._run_sequential_process` (logging and telemetry are
external side effects and not modelled; `_format_output` returns the final
output unchanged when `full_output` is unset). -/
def run_sequential (env : RunEnv) (crew : MCrew) :
    List String × Except String (MCrew × String) :=
  match run_seq_tasks env crew.agents crew.tasks "" with
  | (tr, Except.error e) => (tr, Except.error e)
  | (tr, Except.ok (ts', fin)) => (tr, Except.ok ({ crew with tasks := ts' }, fin))

/-- Modelled from the spec: the default manager agent built in
`Crew._run_hierarchical_process` from the i18n `hierarchical_manager_agent`
slices (role/goal/backstory retrieved from the external i18n table), holding
the full delegation tool set. -/
def hierarchical_manager_agent (agents : List MAgent) : MAgent :=
  { role := "Crew Manager", allow_delegation := false, tools := agent_tools agents }

/-- Embedding of the manager task loop in `Crew._run_hierarchical_process`:
the manager executes every task in order, each output becoming the next
context (hierarchical execution always feeds forward). -/
def run_manager_tasks (env : RunEnv) (manager : MAgent) :
    List MTask → String → List String × String
  | [], ctx => ([], ctx)
  | t :: ts, ctx =>
    let out := env.execOutput (some manager) t ctx
    let p := run_manager_tasks env manager ts out
    (t.description :: p.1, p.2)

/-- Embedding of `Crew._run_hierarchical_process`: reuse the supplied
manager agent (forcing its delegation flag on, raising when it already holds
tools, then granting it the delegation tool set — a mutation that persists
on the crew), or construct the default manager; then run every task under
the manager.  Returns the execution trace and, on success, the updated crew
and final output. -/
def run_hierarchical (env : RunEnv) (crew : MCrew) :
    List String × Except String (MCrew × String) :=
  match crew.manager_agent with
  | some m0 =>
    let m1 := { m0 with allow_delegation := true }
    if m1.tools.length > 0 then
      ([], Except.error "Manager agent should not have tools")
    else
      let manager := { m1 with tools := agent_tools crew.agents }
      let crew1 := { crew with manager_agent := some manager }
      let p := run_manager_tasks env manager crew1.tasks ""
      (p.1, Except.ok (crew1, p.2))
  | none =>
    let manager := hierarchical_manager_agent crew.agents
    let p := run_manager_tasks env manager crew.tasks ""
    (p.1, Except.ok (crew, p.2))

/-- Embedding of `Crew.kickoff`: interpolate the inputs, install
task callbacks, then branch on the process.  The hierarchical branch invokes
`_run_hierarchical_process` twice, exactly as the source does
(crew.py lines 276-280).  The autonomous branch delegates to an external
planning sub-crew and returns no result.  Agent executor binding, metrics
aggregation and telemetry touch only external collaborators and are not
modelled.  Returns the execution trace and, on success, the updated crew and
the final output. -/
def kickoff (env : RunEnv) (inputs : List (String × String)) (crew : MCrew) :
    List String × Except String (MCrew × String) :=
  let c1 := interpolate_inputs inputs crew
  let c2 := set_tasks_callbacks c1
  match c2.process with
  | MProcess.sequential => run_sequential env c2
  | MProcess.hierarchical =>
    match run_hierarchical env c2 with
    | (tr1, Except.error e) => (tr1, Except.error e)
    | (tr1, Except.ok (c3, _r1)) =>
      match run_hierarchical env c3 with
      | (tr2, Except.error e) => (tr1 ++ tr2, Except.error e)
      | (tr2, Except.ok (c4, r2)) => (tr1 ++ tr2, Except.ok (c4, r2))
  | MProcess.autonomous => ([], Except.ok (c2, ""))

/-!  Derived definitions and concrete fixtures used by the theorems.  -/

/-- Iterating `ToolUsage._format_result` over the raw results of a sequence
of tool calls for one task, producing the observation of each call in
order. -/
def formatRun (env : ToolEnv) : UseState → List String → List String
  | _, [] => []
  | st, r :: rs =>
    let p := formatResult env st r
    p.2 :: formatRun env p.1 rs

/-- Environment whose oracle parses every text to a call of a tool that
always raises, the single registered tool. -/
def alwaysRaisesEnv (nm : String) (args : List (String × ArgVal)) (e : String) : ToolEnv :=
  { parse := fun _ => some { function_name := nm, arguments := args },
    tools := [{ name := nm, run := fun _ => Except.error e }],
    tools_description := "", tools_names := "" }

/-- Fixture: the oracle parses to a tool name that is not registered. -/
def envC2 : ToolEnv :=
  { parse := fun _ => some { function_name := "missing", arguments := [("q", ArgVal.s "x")] },
    tools := [{ name := "search", run := fun _ => Except.ok "r" }],
    tools_description := "d", tools_names := "n" }

/-- Fixture: a call to tool `t`, whose run returns the empty string. -/
def callC3A : ToolCalling := { function_name := "t", arguments := [("k", ArgVal.s "1")] }

/-- Fixture: a call to tool `u`. -/
def callC3B : ToolCalling := { function_name := "u", arguments := [] }

/-- Fixture: tool `t` always returns the empty string, tool `u` returns
`"y"`; the oracle maps text `a` to a `t` call and text `b` to a `u`
call. -/
def envC3 : ToolEnv :=
  { parse := fun s => if s == "a" then some callC3A else if s == "b" then some callC3B else none,
    tools := [{ name := "t", run := fun _ => Except.ok "" },
              { name := "u", run := fun _ => Except.ok "y" }],
    tools_description := "d", tools_names := "n" }

/-- First call in the C3 counterexample run: `use("a")`. -/
def useC3a : UseState × UseOutcome := useFuel 4 envC3 initUseState "a"

/-- Second call in the C3 counterexample run: `use("b")`. -/
def useC3b : UseState × UseOutcome := useFuel 4 envC3 useC3a.1 "b"

/-- Third call in the C3 counterexample run: `use("a")` again, now with a
cached (empty) result for its key. -/
def useC3c : UseState × UseOutcome := useFuel 4 envC3 useC3b.1 "a"

/-- Fixture: a call to tool `w` with a string argument. -/
def callC3W : ToolCalling := { function_name := "w", arguments := [("k", ArgVal.s "1")] }

/-- Fixture: tool `w` would return `"fresh"` when executed. -/
def envC3W : ToolEnv :=
  { parse := fun _ => some callC3W,
    tools := [{ name := "w", run := fun _ => Except.ok "fresh" }],
    tools_description := "d", tools_names := "n" }

/-- Fixture: a state whose cache already holds output `"cached"` for tool
`w`'s key. -/
def stC3W : UseState :=
  { initUseState with
    handler := { last_used_tool := none,
                 cache := [(("w", [("k", ArgVal.s "1")]), "cached")] } }

/-- Fixture: the oracle parses to a call of tool `boom` (string-valued
arguments) and `boom` always raises `kaboom`. -/
def envC4 : ToolEnv :=
  { parse := fun _ => some { function_name := "boom", arguments := [("q", ArgVal.s "x")] },
    tools := [{ name := "boom", run := fun _ => Except.error "kaboom" }],
    tools_description := "d", tools_names := "n" }

/-- Fixture: a call whose argument value is an integer, so
`", ".join(arguments.values())` raises. -/
def callC5 : ToolCalling := { function_name := "t5", arguments := [("n", ArgVal.i 2)] }

/-- Fixture: tool `t5` returns the empty string. -/
def envC5 : ToolEnv :=
  { parse := fun _ => some callC5,
    tools := [{ name := "t5", run := fun _ => Except.ok "" }],
    tools_description := "d", tools_names := "n" }

/-- First `use` invocation of the C5 counterexample run. -/
def useC5a : UseState × UseOutcome := useFuel 4 envC5 initUseState "x"

/-- Second, value-equal `use` invocation of the C5 counterexample run. -/
def useC5b : UseState × UseOutcome := useFuel 4 envC5 useC5a.1 "x"

/-- Fixture: a call with a string-valued argument for the C5 witness. -/
def callC5W : ToolCalling := { function_name := "t", arguments := [("q", ArgVal.s "x")] }

/-- Fixture environment for the C5 witness. -/
def envC5W : ToolEnv :=
  { parse := fun _ => some callC5W,
    tools := [{ name := "t", run := fun _ => Except.ok "y" }],
    tools_description := "d", tools_names := "n" }

/-- Fixture: the handler already records `callC5W` as the last used tool. -/
def stC5W : UseState :=
  { initUseState with handler := { last_used_tool := some callC5W, cache := [] } }

/-- Fixture environment for the C10 witness. -/
def envC10 : ToolEnv :=
  { parse := fun _ => none, tools := [], tools_description := "desc", tools_names := "names" }

/-- Concrete run environment: the execution oracle returns the task's
description joined with its context. -/
def traceEnv : RunEnv := { execOutput := fun _ t ctx => t.description ++ "|" ++ ctx }

/-- Fixture agent. -/
def agentA : MAgent := { role := "researcher", allow_delegation := false, tools := [] }

/-- Fixture task owned by `agentA`. -/
def taskT1 : MTask :=
  { description := "T1", expected_output := "E1", agent := some agentA,
    tools := [], callback := none, async_execution := false }

/-- Fixture: a hierarchical crew driven by a manager llm, with one task. -/
def crewC1 : MCrew :=
  { tasks := [taskT1], agents := [agentA], process := MProcess.hierarchical,
    manager_llm := some "gpt-4", manager_agent := none, task_callback := none,
    config := none }

/-- Fixture: a task that already defines its own completion callback. -/
def taskC6 : MTask :=
  { description := "d6", expected_output := "e6", agent := none, tools := [],
    callback := some "orig_cb", async_execution := false }

/-- Fixture: a crew with a crew-level `task_callback` and a task that
already has its own callback. -/
def crewC6 : MCrew :=
  { tasks := [taskC6], agents := [], process := MProcess.sequential,
    manager_llm := none, manager_agent := none, task_callback := some "crew_cb",
    config := none }

/-- Fixture: an unassigned task for the C8 counterexample. -/
def taskC8 : MTask :=
  { description := "d8", expected_output := "e8", agent := none, tools := [],
    callback := none, async_execution := false }

/-- Fixture: a crew with one task, an empty agents list and no config — the
configuration the claim says must fail construction validation. -/
def crewC8 : MCrew :=
  { tasks := [taskC8], agents := [], process := MProcess.sequential,
    manager_llm := none, manager_agent := none, task_callback := none,
    config := none }

/-- Fixture: a manager agent supplied with a pre-existing tool. -/
def managerC9 : MAgent :=
  { role := "mgr", allow_delegation := false, tools := ["calculator"] }

/-- Fixture: a hierarchical crew whose custom manager already holds a
tool. -/
def crewC9 : MCrew :=
  { tasks := [taskT1], agents := [agentA], process := MProcess.hierarchical,
    manager_llm := none, manager_agent := some managerC9, task_callback := none,
    config := none }

/-- Fixture: an agent that allows delegation. -/
def agentP : MAgent := { role := "planner", allow_delegation := true, tools := [] }

/-- Fixture: a second agent, the delegation target. -/
def agentW : MAgent := { role := "writer", allow_delegation := false, tools := [] }

/-- Fixture: a task owned by the delegating agent, with an empty tool
list. -/
def taskC7 : MTask :=
  { description := "plan", expected_output := "a plan", agent := some agentP,
    tools := [], callback := none, async_execution := false }

/-- Fixture: a two-agent sequential crew whose only task's agent allows
delegation. -/
def crewC7 : MCrew :=
  { tasks := [taskC7], agents := [agentP, agentW], process := MProcess.sequential,
    manager_llm := none, manager_agent := none, task_callback := none,
    config := none }

/-- The crew state after the first `kickoff` (task tool lists mutated in
place by the delegation-tool augmentation persist on the crew). -/
def crewC7_after1 : MCrew :=
  match (kickoff traceEnv [] crewC7).2 with
  | Except.ok p => p.1
  | Except.error _ => crewC7

/-- The crew state after a second `kickoff` on the same crew. -/
def crewC7_after2 : MCrew :=
  match (kickoff traceEnv [] crewC7_after1).2 with
  | Except.ok p => p.1
  | Except.error _ => crewC7_after1

/-!  Helper lemmas (shared).  -/

theorem formatResult_fst (env : ToolEnv) (st : UseState) (r : String) :
    (formatResult env st r).1 = { st with used_tools := st.used_tools + 1 } := by
  simp only [formatResult]
  split <;> rfl

theorem formatResult_snd (env : ToolEnv) (st : UseState) (r : String) :
    (formatResult env st r).2 =
      if (st.used_tools + 1) % st.remember_after == 0 then rememberFormat env r else r := by
  simp only [formatResult]
  split <;> simp_all

theorem formatResult_execLog (env : ToolEnv) (st : UseState) (r : String) :
    (formatResult env st r).1.execLog = st.execLog := by
  rw [formatResult_fst]

theorem formatRun_getElem? (env : ToolEnv) :
    ∀ (rs : List String) (st : UseState) (k : Nat),
      (formatRun env st rs).get? k =
        (rs.get? k).map (fun r =>
          if (st.used_tools + (k + 1)) % st.remember_after == 0 then
            rememberFormat env r
          else r) := by
  intro rs
  induction rs with
  | nil => intro st k; simp [formatRun]
  | cons r rest ih =>
    intro st k
    cases k with
    | zero =>
      simp [formatRun, formatResult_snd]
    | succ k' =>
      have h1 : (formatRun env st (r :: rest)).get? (k' + 1) =
          (formatRun env (formatResult env st r).1 rest).get? k' := by
        simp [formatRun]
      rw [h1, ih, formatResult_fst]
      have h2 : st.used_tools + 1 + (k' + 1) = st.used_tools + (k' + 1 + 1) := by omega
      simp [h2]

/-!  Claim theorems.  -/

/-- Claim C1 (code bug, evaluation at the failing input): the claim says a
single `kickoff` of a hierarchical crew runs the hierarchical terminal
procedure exactly once, so every task executes exactly once per run.  The
source (crew.py lines 276-280) invokes `_run_hierarchical_process()` twice
per `kickoff`: on the one-task hierarchical crew `crewC1` the execution
trace contains the single task `T1` twice. -/
theorem kickoff_hierarchical_executes_each_task_twice :
    (kickoff traceEnv [] crewC1).1 = ["T1", "T1"] ∧ crewC1.tasks.length = 1 := by
  decide

/-- Claim C2 (counterexample): the claim says unresolved tool names are
converted to in-band text and never propagate as exceptions out of `use`.
On `envC2`, whose oracle parses to the unregistered name `missing`, the
`Exception` raised by `_select_tool` propagates out of `use` uncaught. -/
theorem use_unresolved_tool_name_raises :
    (useFuel 4 envC2 initUseState "go").2 =
      UseOutcome.raised (toolNotFoundMsg "missing") := by
  decide

/-- Claim C2 (amended): every `use` call either returns an observation
string in-band (parse failures and tool-execution failures are degraded to
returned strings) or — exactly when the parsed `function_name` resolves to
no registered tool — propagates the tool-not-found exception: any raised
outcome of `useFuel` carries a tool-not-found message for an unresolvable
name. -/
theorem use_raised_only_tool_not_found :
    ∀ (fuel : Nat) (env : ToolEnv) (st : UseState) (ts : String) (m : String),
      (useFuel fuel env st ts).2 = UseOutcome.raised m →
      ∃ name, m = toolNotFoundMsg name ∧ selectTool env.tools name = none := by
  intro fuel
  induction fuel with
  | zero =>
    intro env st ts m h
    simp [useFuel] at h
  | succ n ih =>
    intro env st ts m h
    simp only [useFuel] at h
    split at h
    · simp at h
    · simp at h
    · split at h
      · simp at h
        exact ⟨_, h.symm, by assumption⟩
      · split at h
        · simp at h
        · split at h
          · split at h
            · split at h
              · simp at h
              · exact ih _ _ _ _ h
            · simp at h
          · simp at h

/-- Witness for C2's amended theorem at the concrete raising input. -/
theorem use_raised_only_tool_not_found_witness :
    ∃ name, toolNotFoundMsg "missing" = toolNotFoundMsg name ∧
      selectTool envC2.tools name = none :=
  use_raised_only_tool_not_found 4 envC2 initUseState "go"
    (toolNotFoundMsg "missing") (by decide)

/-- Claim C3 (counterexample): the claim says the underlying tool's run is
invoked at most once per `(tool_name, arguments)` key per crew lifetime.  On
`envC3` tool `t` returns the empty string; after the run `use("a")`,
`use("b")`, `use("a")` the execution log shows the key
`("t", [k -> "1"])` executed twice, because `if not result:` treats the
cached empty string as a cache miss. -/
theorem empty_cached_output_reexecutes_tool :
    useC3c.1.execLog =
      [("t", [("k", ArgVal.s "1")]), ("u", ([] : List (String × ArgVal))),
       ("t", [("k", ArgVal.s "1")])] := by
  decide

/-- Claim C3 (amended): when the cached output for the parsed key is
non-empty (truthy) and the repeated-usage guard does not intercept the call,
`use` skips execution entirely (the execution log is unchanged) and returns
the cached value bit-for-bit (the formatting step leaves it unchanged off
the every-third-call reminder cadence); an empty cached output is instead
treated as a miss and re-executes. -/
theorem cache_hit_skips_execution (fuel : Nat) (env : ToolEnv) (st : UseState)
    (ts : String) (calling : ToolCalling) (tool : SimTool) (v : String)
    (hp : env.parse (normalizeToolString ts) = some calling)
    (hs : selectTool env.tools calling.function_name = some tool)
    (hr : checkToolRepeatedUsage st calling = false)
    (hc : cacheRead st.handler.cache calling.function_name calling.arguments = some v)
    (hv : v ≠ "")
    (hm : (st.used_tools + 1) % st.remember_after ≠ 0) :
    (useFuel (fuel + 1) env st ts).2 = UseOutcome.ok v ∧
    (useFuel (fuel + 1) env st ts).1.execLog = st.execLog := by
  have hcache2 : cacheRead (onToolStart st.handler calling).cache
      calling.function_name calling.arguments = some v := by
    simpa [onToolStart] using hc
  have hbeq : (v == "") = false := by
    simpa using hv
  have hm' : ((st.used_tools + 1) % st.remember_after == 0) = false := by
    simpa using hm
  simp only [useFuel, toolCallingFuel, hp, hs, hr, if_false, hcache2, Option.getD_some, hbeq,
    Bool.false_eq_true, formatResult_snd, formatResult_execLog]
  simp [hm']

/-- Witness for C3's amended theorem: with `"cached"` stored for tool `w`'s
key, `use` returns the cached value and executes nothing. -/
theorem cache_hit_skips_execution_witness :
    (useFuel 1 envC3W stC3W "z").2 = UseOutcome.ok "cached" ∧
    (useFuel 1 envC3W stC3W "z").1.execLog = stC3W.execLog :=
  cache_hit_skips_execution 0 envC3W stC3W "z" callC3W
    { name := "w", run := fun _ => Except.ok "fresh" } "cached"
    rfl rfl (by decide) (by decide) (by decide) (by decide)

/-- Claim C4 (counterexample): the claim says an always-raising tool is
retried up to 2 total attempts and then yields a terminal error string
containing the underlying error detail.  On `envC4` (string-valued
arguments) the retry re-parses to the same call, which is now value-equal to
the handler's recorded last call, so the repeated-usage guard intercepts the
second attempt: the tool executes only once and the observation is the
"already used" message, not a terminal error string. -/
theorem always_raising_retry_hijacked_by_guard :
    (useFuel 4 envC4 initUseState "go").2 =
      UseOutcome.ok (task_repeated_usage_msg "boom" "x") ∧
    (useFuel 4 envC4 initUseState "go").1.execLog.length = 1 ∧
    (useFuel 4 envC4 initUseState "go").2 ≠
      UseOutcome.ok (tool_usage_exception_msg "kaboom") := by
  decide

/-- Claim C4 (amended): when the repeated-usage guard does not intercept the
retry (here because a non-string argument value makes the guard's message
formatting raise and fall through), an always-raising tool is executed
exactly twice per `use` call — the whole call is retried once, re-parsing
included — and the call then returns the terminal error string containing
the underlying error detail; a third execution never happens. -/
theorem always_raising_two_executions_then_terminal (nm : String)
    (args : List (String × ArgVal)) (e ts : String) (st : UseState)
    (h1 : st.run_attempts = 1) (h2 : st.max_parsing_attempts = 2)
    (h3 : joinArgValues args = none)
    (h4 : cacheRead st.handler.cache nm args = none) :
    (useFuel 4 (alwaysRaisesEnv nm args e) st ts).2 =
      UseOutcome.ok (tool_usage_exception_msg e) ∧
    (useFuel 4 (alwaysRaisesEnv nm args e) st ts).1.execLog =
      st.execLog ++ [(nm, args), (nm, args)] := by
  obtain ⟨ra, mx, rem, ut, ⟨lu, ca⟩, lg⟩ := st
  simp only at h1 h2 h3 h4
  subst h1 h2
  have hfind : List.find? (fun en => en.1 == (nm, args)) ca = none := by
    by_contra hne
    rcases Option.ne_none_iff_exists.mp hne with ⟨p, hp⟩
    simp [cacheRead, ← hp] at h4
  simp [useFuel, toolCallingFuel, alwaysRaisesEnv, selectTool, onToolStart,
    checkToolRepeatedUsage, h3, cacheRead, hfind]

/-- Witness for C4's amended theorem at a concrete always-raising tool with
an integer argument value. -/
theorem always_raising_two_executions_then_terminal_witness :
    (useFuel 4 (alwaysRaisesEnv "boom" [("n", ArgVal.i 2)] "kaboom") initUseState "go").2 =
      UseOutcome.ok (tool_usage_exception_msg "kaboom") ∧
    (useFuel 4 (alwaysRaisesEnv "boom" [("n", ArgVal.i 2)] "kaboom") initUseState "go").1.execLog =
      initUseState.execLog ++ [("boom", [("n", ArgVal.i 2)]), ("boom", [("n", ArgVal.i 2)])] :=
  always_raising_two_executions_then_terminal "boom" [("n", ArgVal.i 2)] "kaboom" "go"
    initUseState rfl rfl (by decide) (by decide)

/-- Claim C5 (counterexample): the claim says every pair of consecutive
`use` invocations with value-equal parsed calls returns the "already tried"
message on the second call without re-invoking the tool.  On `envC5` the
argument value is an integer, so `", ".join(arguments.values())` inside the
guard's `try` raises, `except: pass` swallows it, and the second invocation
falls through and re-invokes the tool (the empty cached output also reads as
a miss): the log shows two executions and the observation is the tool
output, not the "already tried" message. -/
theorem repeated_guard_skipped_for_nonstring_args :
    useC5b.1.execLog =
      [("t5", [("n", ArgVal.i 2)]), ("t5", [("n", ArgVal.i 2)])] ∧
    useC5b.2 = UseOutcome.ok "" := by
  decide

/-- Claim C5 (amended): when the newly parsed call is value-equal to the
handler's recorded last call AND the guard's message formatting succeeds
(all argument values are strings), `use` short-circuits: it returns the
formatted localized "already tried" message and does not re-invoke the tool
(the execution log is unchanged). -/
theorem repeated_call_short_circuits (fuel : Nat) (env : ToolEnv)
    (st : UseState) (ts : String) (calling : ToolCalling) (tool : SimTool)
    (tool_input : String)
    (hp : env.parse (normalizeToolString ts) = some calling)
    (hs : selectTool env.tools calling.function_name = some tool)
    (hl : st.handler.last_used_tool = some calling)
    (hj : joinArgValues calling.arguments = some tool_input) :
    (useFuel (fuel + 1) env st ts).2 =
      UseOutcome.ok ((formatResult env st
        (task_repeated_usage_msg calling.function_name tool_input)).2) ∧
    (useFuel (fuel + 1) env st ts).1.execLog = st.execLog := by
  have hguard : checkToolRepeatedUsage st calling = true := by
    simp [checkToolRepeatedUsage, hl]
  simp [useFuel, toolCallingFuel, hp, hs, hguard, hj, formatResult_execLog]

/-- Witness for C5's amended theorem at a concrete repeated call with a
string argument. -/
theorem repeated_call_short_circuits_witness :
    (useFuel 1 envC5W stC5W "z").2 =
      UseOutcome.ok ((formatResult envC5W stC5W
        (task_repeated_usage_msg callC5W.function_name "x")).2) ∧
    (useFuel 1 envC5W stC5W "z").1.execLog = stC5W.execLog :=
  repeated_call_short_circuits 0 envC5W stC5W "z" callC5W
    { name := "t", run := fun _ => Except.ok "y" } "x"
    rfl rfl (by decide) (by decide)

/-- Claim C6 (code bug, evaluation at the failing input): the claim says
tasks that already define a completion callback keep it.  The source's
`_set_tasks_callbacks` guards the assignment (line 434) but then assigns
unconditionally (line 436), so on `crewC6` the task's pre-existing
`orig_cb` is clobbered by the crew-level `crew_cb`. -/
theorem set_tasks_callbacks_overwrites_existing_callback :
    (set_tasks_callbacks crewC6).tasks.map MTask.callback = [some "crew_cb"] ∧
    crewC6.tasks.map MTask.callback = [some "orig_cb"] := by
  decide

/-- Claim C7 (counterexample): the claim says the delegation-tool
augmentation is idempotent per task, so a second kickoff leaves the task's
tool list equal to a single augmentation.  On `crewC7` (two agents, one
delegating task) the second kickoff appends the delegation tool again:
`task.tools += ...` has no guard. -/
theorem second_kickoff_duplicates_delegation_tools :
    crewC7_after1.tasks.map MTask.tools = [agent_tools [agentW]] ∧
    crewC7_after2.tasks.map MTask.tools = [agent_tools [agentW] ++ agent_tools [agentW]] ∧
    crewC7_after2.tasks.map MTask.tools ≠ crewC7_after1.tasks.map MTask.tools := by
  decide

/- Claim C7 amended theorem follows. -/

/-- Claim C7 (amended): the augmentation appends one delegation tool per
other agent to the task's tool list on EVERY application, so it is not
idempotent: a single application appends one copy of the delegation set and
a second application (a second kickoff) appends a second copy. -/
theorem augmentation_appends_each_time (agents : List MAgent) (t : MTask) (a : MAgent)
    (ha : t.agent = some a) (hd : a.allow_delegation = true)
    (hn : agents.length > 1) (hf : (agents.filter (fun ag => ag != a)).length > 0) :
    augment_task_tools agents t =
      some { t with tools := t.tools ++ agent_tools (agents.filter (fun ag => ag != a)) } ∧
    (augment_task_tools agents t).bind (augment_task_tools agents) =
      some { t with tools := (t.tools ++ agent_tools (agents.filter (fun ag => ag != a)))
                              ++ agent_tools (agents.filter (fun ag => ag != a)) } := by
  simp [augment_task_tools, ha, hd, hn, hf]

/-- Witness for C7's amended theorem on the concrete two-agent crew. -/
theorem augmentation_appends_each_time_witness :
    augment_task_tools [agentP, agentW] taskC7 =
      some { taskC7 with
        tools := taskC7.tools ++
          agent_tools ([agentP, agentW].filter (fun ag => ag != agentP)) } ∧
    (augment_task_tools [agentP, agentW] taskC7).bind (augment_task_tools [agentP, agentW]) =
      some { taskC7 with
        tools := (taskC7.tools ++
            agent_tools ([agentP, agentW].filter (fun ag => ag != agentP))) ++
          agent_tools ([agentP, agentW].filter (fun ag => ag != agentP)) } :=
  augmentation_appends_each_time [agentP, agentW] taskC7 agentP
    rfl rfl (by decide) (by decide)

/-- Claim C8 (counterexample): the claim says a crew with tasks but an empty
agents list and no config fails construction-time validation.  `crewC8` is
exactly that configuration and passes both construction validators. -/
theorem crew_with_tasks_but_no_agents_passes_validation :
    constructCrew crewC8 = Except.ok crewC8 := by
  decide

/-- Claim C8 (amended): for a crew built without declarative config, the
construction-time validator rejects it exactly when the tasks list AND the
agents list are both empty; a crew with tasks but no agents (or agents but
no tasks) passes. -/
theorem check_config_rejects_only_all_empty (crew : MCrew) (h : crew.config = none) :
    (∃ e, check_config crew = Except.error e) ↔ (crew.tasks = [] ∧ crew.agents = []) := by
  by_cases hc : crew.tasks = [] ∧ crew.agents = []
  · simp [check_config, h, hc.1, hc.2]
  · rw [check_config, if_neg, h]
    · simp [hc]
    · simp [h, List.isEmpty_iff]
      tauto

/-- Witness for C8's amended theorem at the concrete crew with tasks but no
agents. -/
theorem check_config_rejects_only_all_empty_witness :
    (∃ e, check_config crewC8 = Except.error e) ↔
      (crewC8.tasks = [] ∧ crewC8.agents = []) :=
  check_config_rejects_only_all_empty crewC8 rfl

/-- Claim C9 (counterexample): the claim says a hierarchical crew whose
manager agent holds tools raises a configuration error at construction time.
`crewC9` is such a crew and its construction succeeds; the error is raised
only when `kickoff` enters `_run_hierarchical_process`. -/
theorem manager_with_tools_passes_construction :
    constructCrew crewC9 = Except.ok crewC9 ∧
    kickoff traceEnv [] crewC9 =
      ([], Except.error "Manager agent should not have tools") := by
  decide

/-- Claim C9 (amended): a hierarchical crew whose manager agent holds a
non-empty tool list passes construction-time validation and fails at
`kickoff`, inside the hierarchical run, before any task executes (the
execution trace is empty). -/
theorem manager_with_tools_fails_at_kickoff
    (env : RunEnv) (inputs : List (String × String)) (crew : MCrew) (m : MAgent)
    (hp : crew.process = MProcess.hierarchical)
    (hm : crew.manager_agent = some m)
    (ht : m.tools ≠ [])
    (hmem : m ∉ crew.agents)
    (hc : crew.config = none)
    (hne : crew.agents ≠ []) :
    constructCrew crew = Except.ok crew ∧
    kickoff env inputs crew = ([], Except.error "Manager agent should not have tools") := by
  have hlen : m.tools.length > 0 := List.length_pos.mpr ht
  constructor
  · simp [constructCrew, check_manager_llm, hp, hm, hmem, check_config, hc,
      List.isEmpty_iff, hne]
  · simp [kickoff, interpolate_inputs, set_tasks_callbacks, hp, run_hierarchical, hm, hlen]

/-- Witness for C9's amended theorem at the concrete tooled-manager crew. -/
theorem manager_with_tools_fails_at_kickoff_witness :
    constructCrew crewC9 = Except.ok crewC9 ∧
    kickoff traceEnv [] crewC9 =
      ([], Except.error "Manager agent should not have tools") :=
  manager_with_tools_fails_at_kickoff traceEnv [] crewC9 managerC9
    rfl rfl (by decide) (by decide) rfl (by decide)

/-- Claim C10 (confirmed): for a sequence of tool calls formatted for one
task whose used-tools counter starts at zero, the reminder block is appended
to the observation exactly on calls numbered 3, 6, 9, ... (the k-th
0-indexed observation carries the reminder iff the 1-indexed call number
k+1 is divisible by 3) and on no other call. -/
theorem reminder_every_third_call (env : ToolEnv) (st : UseState) (rs : List String) (k : Nat)
    (h0 : st.used_tools = 0) (h3 : st.remember_after = 3) :
    (formatRun env st rs).get? k =
      (rs.get? k).map (fun r => if (k + 1) % 3 == 0 then rememberFormat env r else r) := by
  rw [formatRun_getElem? env rs st k, h0, h3]
  simp

/-- Witness for C10's theorem: on a three-call run the third observation
(and only by the stated cadence) carries the reminder block. -/
theorem reminder_every_third_call_witness :
    (formatRun envC10 initUseState ["a", "b", "c"]).get? 2 =
      (["a", "b", "c"].get? 2).map
        (fun r => if (2 + 1) % 3 == 0 then rememberFormat envC10 r else r) :=
  reminder_every_third_call envC10 initUseState ["a", "b", "c"] 2 rfl rfl

end CrewAI
